import Mathlib

/-!
Shallow embedding of `src/vtol.py` (class `VTOL`): the command dispatcher
`coms_callback`, the maneuvers `takeoff`, `go_to`, `land`, `set_altitude`,
the status mutator `change_status`, and the telemetry loop `update_thread`.

Modelling conventions:
- Machine/autopilot sensor values polled over time (armable, armed, altitude,
  distance-to-target) are finite prefixes of the reading streams, stored in the
  vehicle state; a polling loop that exhausts its prefix without its exit
  condition holding is reported as `none` / `blocked` (the real loop would
  still be spinning).
- Python `raise` is modelled as an error result carrying the object state at
  the moment of the raise; since every raise in this file happens before any
  mutation, that state is the entry state.
- Numbers are `ℚ` (Python floats used exactly), ids are `ℕ`.
- The side effects performed against the autopilot are recorded as an `Event`
  trace in program order.
-/

namespace VTOL

/-- Mission configuration: the keys of `self.configs` that the embedded code
reads (`altitude`, `air_speed`, `waypoint_tolerance`, `vehicle_id`). -/
structure Configs where
  altitude : ℚ
  air_speed : ℚ
  waypoint_tolerance : ℚ
  vehicle_id : ℕ
deriving DecidableEq, Repr

/-- `dronekit.LocationGlobalRelative(lat, lon, alt)`. -/
structure LocationGlobalRelative where
  lat : ℚ
  lon : ℚ
  alt : ℚ
deriving DecidableEq, Repr

/-- Observable actions the code performs against the autopilot, in program
order: mode changes, the arm command (`self.armed = True`), `simple_takeoff`,
`simple_goto`, each poll of a sensor (one per loop test), and sleeps. -/
inductive Event where
  | setMode (m : String)
  | setArmed
  | simpleTakeoff (alt : ℚ)
  | simpleGoto (point : LocationGlobalRelative) (speed : ℚ)
  | pollArmable (v : Bool)
  | pollArmed (v : Bool)
  | pollAlt (v : ℚ)
  | pollDist (v : ℚ)
  | sleep (secs : ℚ)
deriving DecidableEq, Repr

/-- The vehicle state visible to the embedded methods: configuration, the
mutable `status` string, `land_mode`, the current `VehicleMode`, the current
horizontal position (`self.location.global_relative_frame.lat/.lon` at
invocation time), and the prefixes of the sensor reading streams the polling
loops consume. -/
structure VTOLState where
  configs : Configs
  status : String
  land_mode : String
  mode : String
  lat : ℚ
  lon : ℚ
  armableReadings : List Bool
  armedReadings : List Bool
  altReadings : List ℚ
  distReadings : List ℚ
deriving DecidableEq, Repr

/-- One Python `while not p(poll()): ...` loop: consume readings up to and
including the first one satisfying `p`; `none` when the prefix is exhausted
with every reading failing `p` (the real loop would still be running).
Returns the consumed readings and the rest of the stream. -/
def pollUntil (p : α → Bool) : List α → Option (List α × List α)
  | [] => none
  | x :: xs =>
    if p x then some ([x], xs)
    else
      match pollUntil p xs with
      | none => none
      | some (c, r) => some (x :: c, r)

/-- `VTOL.takeoff` (vtol.py lines 84-110): wait for `is_armable`, set GUIDED
mode and command arming, wait for `armed`, command `simple_takeoff(altitude)`,
then wait until altitude is no longer `< altitude * 0.95`. -/
def takeoff (s : VTOLState) : Option (List Event × VTOLState) :=
  match pollUntil (fun b => b) s.armableReadings with
  | none => none
  | some (c1, r1) =>
    match pollUntil (fun b => b) s.armedReadings with
    | none => none
    | some (c2, r2) =>
      match pollUntil (fun a => ! decide (a < s.configs.altitude * (95 / 100)))
          s.altReadings with
      | none => none
      | some (c3, r3) =>
        some (c1.map Event.pollArmable
                ++ [Event.setMode "GUIDED", Event.setArmed]
                ++ c2.map Event.pollArmed
                ++ [Event.simpleTakeoff s.configs.altitude]
                ++ c3.map Event.pollAlt,
              { s with mode := "GUIDED",
                       armableReadings := r1,
                       armedReadings := r2,
                       altReadings := r3 })

/-- `VTOL.go_to` (vtol.py lines 112-124): one `simple_goto(point, air_speed)`,
then loop polling `get_distance_metres(current, point)`; `break` on the first
reading not `> waypoint_tolerance`. -/
def go_to (s : VTOLState) (point : LocationGlobalRelative) :
    Option (List Event × VTOLState) :=
  match pollUntil (fun d => ! decide (s.configs.waypoint_tolerance < d))
      s.distReadings with
  | none => none
  | some (c, r) =>
    some (Event.simpleGoto point s.configs.air_speed :: c.map Event.pollDist,
          { s with distReadings := r })

/-- `VTOL.land` (vtol.py lines 127-140): set mode to `land_mode`, loop while
altitude `> 0`, then `time.sleep(5)`. -/
def land (s : VTOLState) : Option (List Event × VTOLState) :=
  match pollUntil (fun a => ! decide ((0 : ℚ) < a)) s.altReadings with
  | none => none
  | some (c, r) =>
    some (Event.setMode s.land_mode :: (c.map Event.pollAlt ++ [Event.sleep 5]),
          { s with mode := s.land_mode, altReadings := r })

/-- `VTOL.set_altitude` (vtol.py lines 142-148): build a destination from the
current horizontal position and the requested altitude, then `go_to` it. -/
def set_altitude (s : VTOLState) (alt : ℚ) : Option (List Event × VTOLState) :=
  go_to s { lat := s.lat, lon := s.lon, alt := alt }

/-- Errors the embedded code can signal: the generic
`raise Exception("Error: Unsupported status for vehicle")` used both for bad
commands and bad statuses, and a Python `KeyError` on a missing dict key. -/
inductive VtolError where
  | unsupported (msg : String)
  | keyError (key : String)
deriving DecidableEq, Repr

/-- An inbound radio command: the dict `{"Type": ..., "Body": {...}}`. The
body is an association list since keys may be missing. -/
structure Command where
  Type_ : String
  Body : List (String × ℚ)
deriving DecidableEq, Repr

/-- Python `body[k]`: value on hit, `KeyError k` on miss. -/
def dictGet (body : List (String × ℚ)) (k : String) : Except VtolError ℚ :=
  match body.lookup k with
  | some v => Except.ok v
  | none => Except.error (VtolError.keyError k)

/-- Outcome of one dispatcher invocation: the maneuver completed (`done`, with
the event trace and post state), an exception was raised (`raised`, with the
events performed and the object state at the raise), or a polling loop is
still waiting when its reading prefix runs out (`blocked`). -/
inductive CbResult where
  | done (tr : List Event) (s : VTOLState)
  | raised (e : VtolError) (tr : List Event) (s : VTOLState)
  | blocked (s : VTOLState)
deriving DecidableEq, Repr

/-- Lift a maneuver result into a callback outcome. -/
def runManeuver (s : VTOLState) : Option (List Event × VTOLState) → CbResult
  | some (tr, s') => CbResult.done tr s'
  | none => CbResult.blocked s

/-- The tuple `valid_commands` of vtol.py line 37. -/
def valid_commands : List String := ["takeoff", "land", "go_to", "set_altitude"]

/-- `VTOL.coms_callback` (vtol.py lines 33-54): reject a `Type` outside
`valid_commands`, else dispatch to the maneuver, decoding `Body` keys in
Python evaluation order (`Lat`, `Lon`, `Alt` for go_to; `Alt` for
set_altitude) before the maneuver call. -/
def coms_callback (s : VTOLState) (command : Command) : CbResult :=
  if command.Type_ ∉ valid_commands then
    CbResult.raised (VtolError.unsupported "Error: Unsupported status for vehicle") [] s
  else if command.Type_ = "takeoff" then
    runManeuver s (takeoff s)
  else if command.Type_ = "land" then
    runManeuver s (land s)
  else if command.Type_ = "go_to" then
    match dictGet command.Body "Lat" with
    | Except.error e => CbResult.raised e [] s
    | Except.ok la =>
      match dictGet command.Body "Lon" with
      | Except.error e => CbResult.raised e [] s
      | Except.ok lo =>
        match dictGet command.Body "Alt" with
        | Except.error e => CbResult.raised e [] s
        | Except.ok al =>
          runManeuver s (go_to s { lat := la, lon := lo, alt := al })
  else if command.Type_ = "set_altitude" then
    match dictGet command.Body "Alt" with
    | Except.error e => CbResult.raised e [] s
    | Except.ok al => runManeuver s (set_altitude s al)
  else
    CbResult.done [] s

/-- The tuple of accepted statuses in vtol.py line 152. -/
def valid_statuses : List String := ["ready", "running", "waiting", "paused", "error"]

/-- `VTOL.change_status` (vtol.py lines 150-154): raise on a status outside
the five-element tuple (the raise precedes the assignment, so the returned
state is the entry state), else set `self.status`. -/
def change_status (s : VTOLState) (new_status : String) :
    VTOLState × Option VtolError :=
  if new_status ∉ valid_statuses then
    (s, some (VtolError.unsupported "Error: Unsupported status for vehicle"))
  else ({ s with status := new_status }, none)

/-- The two Coms link timestamps that `update_thread` reads.
Modelled from the spec: the `Coms` class (coms.py) is not in the sources;
per the spec its `con_timestamp` (local origin time) and `gcs_timestamp`
(peer origin time) are established once at link setup and never changed
afterwards (no resynchronization), so they appear here as immutable fields. -/
structure ComsLink where
  con_timestamp : ℚ
  gcs_timestamp : ℤ
deriving DecidableEq, Repr

/-- What one cycle of the `update_thread` loop reads afresh: the
`time.clock()` sample, the current position, the battery level
(`None`-able), the fresh message id from `coms.new_msg_id()`, and the
current `self.status`. -/
structure CycleInput where
  clock : ℚ
  lat : ℚ
  lon : ℚ
  batteryLevel : Option ℚ
  msgId : ℕ
  status : String
deriving DecidableEq, Repr

/-- The outbound `update_message` dict of vtol.py lines 232-245. -/
structure UpdateMsg where
  type : String
  time : ℤ
  sid : ℕ
  tid : ℕ
  id : ℕ
  vehicleType : String
  lat : ℚ
  lon : ℚ
  status : String
  battery : ℚ
deriving DecidableEq, Repr

/-- The body of one `update_thread` cycle (vtol.py lines 229-245): the
`time` field is `round(time.clock() - coms.con_timestamp) + coms.gcs_timestamp`
and the battery is `level / 100.0 if level else 0.0` (Python truthiness:
`None` and `0` both give `0.0`). -/
def mk_update_message (coms : ComsLink) (cfg : Configs) (c : CycleInput) :
    UpdateMsg :=
  { type := "update"
    time := round (c.clock - coms.con_timestamp) + coms.gcs_timestamp
    sid := cfg.vehicle_id
    tid := 0
    id := c.msgId
    vehicleType := "VTOL"
    lat := c.lat
    lon := c.lon
    status := c.status
    battery :=
      match c.batteryLevel with
      | some v => if v = 0 then 0 else v / 100
      | none => 0 }

/-- `VTOL.update_thread` (vtol.py lines 223-248): the loop runs one cycle per
element of `cycles` (the mission-completed flag ends the loop after finitely
many cycles), building and sending one update message per cycle with the same
`coms` timestamps throughout. -/
def update_thread (coms : ComsLink) (cfg : Configs) :
    List CycleInput → List UpdateMsg
  | [] => []
  | c :: cs => mk_update_message coms cfg c :: update_thread coms cfg cs

/-! ## Structure lemmas -/

/-- A successful `pollUntil` consumed a block of readings failing `p`
followed by exactly one reading satisfying it, and the input stream is the
consumed block followed by the returned rest. -/
theorem pollUntil_eq_some (p : α → Bool) (xs c r : List α)
    (h : pollUntil p xs = some (c, r)) :
    ∃ pre x, c = pre ++ [x] ∧ (∀ y ∈ pre, p y = false) ∧ p x = true ∧
      xs = c ++ r := by
  induction xs generalizing c r with
  | nil => simp [pollUntil] at h
  | cons a as ih =>
    rw [pollUntil] at h
    by_cases hp : p a
    · simp [hp] at h
      exact ⟨[], a, by simp [← h.1], by simp, hp, by simp [← h.1, ← h.2]⟩
    · simp [hp] at h
      match hrec : pollUntil p as with
      | none => rw [hrec] at h; simp at h
      | some (c', r') =>
        rw [hrec] at h
        simp at h
        obtain ⟨pre, x, hc, hpre, hx, hxs⟩ := ih c' r' hrec
        refine ⟨a :: pre, x, ?_, ?_, hx, ?_⟩
        · simp [← h.1, hc]
        · intro y hy
          rcases List.mem_cons.mp hy with hya | hyp
          · subst hya; exact Bool.of_not_eq_true hp
          · exact hpre y hyp
        · simp [← h.1, ← h.2, hxs]

/-- The status string carried by a callback outcome (post state for `done`,
object state at the raise for `raised`, entry state for a still-waiting
loop). -/
def cbStatus : CbResult → String
  | CbResult.done _ s => s.status
  | CbResult.raised _ _ s => s.status
  | CbResult.blocked s => s.status

/-- Recognizes the navigation request event (`simple_goto`). -/
def isNavRequest : Event → Bool
  | Event.simpleGoto _ _ => true
  | _ => false

/-- A successful maneuver run never changes the status field: helper for the
per-maneuver preservation lemmas. -/
theorem runManeuver_status (s : VTOLState) (m : Option (List Event × VTOLState))
    (hm : ∀ tr s', m = some (tr, s') → s'.status = s.status) :
    cbStatus (runManeuver s m) = s.status := by
  match m with
  | none => rfl
  | some (tr, s') => exact hm tr s' rfl

theorem takeoff_status (s : VTOLState) : ∀ tr s',
    takeoff s = some (tr, s') → s'.status = s.status := by
  intro tr s' h
  rw [takeoff] at h
  rcases h1 : pollUntil (fun b => b) s.armableReadings with _ | ⟨c1, r1⟩ <;>
    rw [h1] at h
  · exact absurd h (by simp)
  rcases h2 : pollUntil (fun b => b) s.armedReadings with _ | ⟨c2, r2⟩ <;>
    rw [h2] at h
  · exact absurd h (by simp)
  rcases h3 : pollUntil
      (fun a => ! decide (a < s.configs.altitude * (95 / 100)))
      s.altReadings with _ | ⟨c3, r3⟩ <;> rw [h3] at h
  · exact absurd h (by simp)
  · simp at h
    rw [← h.2]

theorem go_to_status (s : VTOLState) (pt : LocationGlobalRelative) : ∀ tr s',
    go_to s pt = some (tr, s') → s'.status = s.status := by
  intro tr s' h
  rw [go_to] at h
  rcases h1 : pollUntil (fun d => ! decide (s.configs.waypoint_tolerance < d))
      s.distReadings with _ | ⟨c, r⟩ <;> rw [h1] at h
  · exact absurd h (by simp)
  · simp at h
    rw [← h.2]

theorem land_status (s : VTOLState) : ∀ tr s',
    land s = some (tr, s') → s'.status = s.status := by
  intro tr s' h
  rw [land] at h
  rcases h1 : pollUntil (fun a => ! decide ((0 : ℚ) < a)) s.altReadings
      with _ | ⟨c, r⟩ <;> rw [h1] at h
  · exact absurd h (by simp)
  · simp at h
    rw [← h.2]

theorem set_altitude_status (s : VTOLState) (alt : ℚ) : ∀ tr s',
    set_altitude s alt = some (tr, s') → s'.status = s.status :=
  go_to_status s { lat := s.lat, lon := s.lon, alt := alt }

/-! ## Concrete states used by witnesses -/

/-- A concrete configuration: target altitude 10 m, air speed 5 m/s, waypoint
tolerance 2 m (the spec's own example). -/
def exConfigs : Configs :=
  { altitude := 10, air_speed := 5, waypoint_tolerance := 2, vehicle_id := 1 }

/-- A concrete vehicle state: armable after 2 failing polls, armed after 1
failing poll, altitude reaching 95 percent of target on the 3rd poll, and the
spec's sample distance stream [50, 10, 3, 1]. -/
def exState : VTOLState :=
  { configs := exConfigs, status := "ready", land_mode := "LAND",
    mode := "STABILIZE", lat := 3, lon := 4,
    armableReadings := [false, false, true],
    armedReadings := [false, true],
    altReadings := [1, 5, 96 / 10],
    distReadings := [50, 10, 3, 1] }

/-! ## Claim theorems -/

/-- C4: `change_status` accepts a value iff it is one of the five status
strings, in which case the stored status becomes exactly that value; any
other value raises and the state (in particular the stored status) is
returned unchanged. -/
theorem change_status_correct (s : VTOLState) (v : String) :
    (v ∈ valid_statuses → change_status s v = ({ s with status := v }, none)) ∧
    (v ∉ valid_statuses →
      change_status s v =
        (s, some (VtolError.unsupported "Error: Unsupported status for vehicle"))) := by
  constructor
  · intro hv
    simp [change_status, hv]
  · intro hv
    simp [change_status, hv]

theorem change_status_correct_witness :
    change_status exState "running" = ({ exState with status := "running" }, none) ∧
    change_status exState "flying" =
      (exState, some (VtolError.unsupported "Error: Unsupported status for vehicle")) :=
  ⟨(change_status_correct exState "running").1 (by decide),
   (change_status_correct exState "flying").2 (by decide)⟩

/-- C6: a command whose `Type` is outside the four valid commands is rejected
by raising, with an empty event trace (no autopilot or maneuver invocation)
and the vehicle state returned exactly as it was; the dispatcher itself is a
total function, so the rejection is a signalled error, not a crash. -/
theorem invalid_command_rejected (s : VTOLState) (c : Command)
    (h : c.Type_ ∉ valid_commands) :
    coms_callback s c =
      CbResult.raised
        (VtolError.unsupported "Error: Unsupported status for vehicle") [] s := by
  simp [coms_callback, h]

theorem invalid_command_rejected_witness :
    coms_callback exState { Type_ := "dance", Body := [] } =
      CbResult.raised
        (VtolError.unsupported "Error: Unsupported status for vehicle") [] exState :=
  invalid_command_rejected exState { Type_ := "dance", Body := [] } (by decide)

/-- C8: `set_altitude alt` is definitionally the `go_to` applied to the point
whose latitude and longitude are the vehicle's current position at invocation
time and whose altitude is `alt`; when it completes, its first (and only)
autopilot request is exactly the `simple_goto` of that point at the
configured air speed. -/
theorem set_altitude_is_go_to (s : VTOLState) (alt : ℚ) :
    set_altitude s alt = go_to s { lat := s.lat, lon := s.lon, alt := alt } ∧
    ((set_altitude s alt).isSome →
      ∃ tr s', set_altitude s alt = some (tr, s') ∧
        tr.head? = some (Event.simpleGoto
          { lat := s.lat, lon := s.lon, alt := alt } s.configs.air_speed)) := by
  refine ⟨rfl, fun hs => ?_⟩
  rw [set_altitude, go_to] at hs ⊢
  rcases h1 : pollUntil (fun d => ! decide (s.configs.waypoint_tolerance < d))
      s.distReadings with _ | ⟨c, r⟩
  · rw [h1] at hs
    simp at hs
  · exact ⟨_, _, rfl, rfl⟩

theorem set_altitude_is_go_to_witness :
    set_altitude exState 7 = go_to exState { lat := exState.lat, lon := exState.lon, alt := 7 } ∧
    ∃ tr s', set_altitude exState 7 = some (tr, s') ∧
      tr.head? = some (Event.simpleGoto
        { lat := exState.lat, lon := exState.lon, alt := 7 } exState.configs.air_speed) :=
  ⟨(set_altitude_is_go_to exState 7).1, (set_altitude_is_go_to exState 7).2 (by decide)⟩

/-- C10: a `go_to` command whose body lacks `Lat`, `Lon` or `Alt` (or a
`set_altitude` command whose body lacks `Alt`) makes the dispatcher fail with
a `KeyError` while decoding the payload, with an empty event trace (no
navigation request issued) and the state, hence the status, unchanged. -/
theorem malformed_body_keyerror (s : VTOLState) (c : Command)
    (h : (c.Type_ = "go_to" ∧
            (c.Body.lookup "Lat" = none ∨ c.Body.lookup "Lon" = none ∨
             c.Body.lookup "Alt" = none)) ∨
         (c.Type_ = "set_altitude" ∧ c.Body.lookup "Alt" = none)) :
    ∃ k, coms_callback s c = CbResult.raised (VtolError.keyError k) [] s := by
  rcases h with ⟨hty, hk⟩ | ⟨hty, hk⟩
  · rcases hLat : c.Body.lookup "Lat" with _ | la
    · exact ⟨"Lat", by simp [coms_callback, hty, valid_commands, dictGet, hLat]⟩
    · rcases hLon : c.Body.lookup "Lon" with _ | lo
      · exact ⟨"Lon", by simp [coms_callback, hty, valid_commands, dictGet, hLat, hLon]⟩
      · rcases hAlt : c.Body.lookup "Alt" with _ | al
        · exact ⟨"Alt", by simp [coms_callback, hty, valid_commands, dictGet, hLat, hLon, hAlt]⟩
        · rw [hLat, hLon, hAlt] at hk
          rcases hk with h' | h' | h' <;> exact absurd h' (by simp)
  · rcases hAlt : c.Body.lookup "Alt" with _ | al
    · exact ⟨"Alt", by simp [coms_callback, hty, valid_commands, dictGet, hAlt]⟩
    · rw [hAlt] at hk
      exact absurd hk (by simp)

theorem malformed_body_keyerror_witness :
    ∃ k, coms_callback exState { Type_ := "go_to", Body := [("Lat", 1)] } =
      CbResult.raised (VtolError.keyError k) [] exState :=
  malformed_body_keyerror exState { Type_ := "go_to", Body := [("Lat", 1)] }
    (Or.inl ⟨rfl, Or.inr (Or.inl (by decide))⟩)

/-- C5: dispatching any of the four valid commands never mutates the status
field: whatever the outcome (maneuver completed, raise while decoding the
payload, or a poll loop still waiting), the status carried by the outcome
equals the status at entry — none of the maneuver implementations writes
`status` (only `change_status` does, and no maneuver calls it). -/
theorem dispatch_preserves_status (s : VTOLState) (c : Command)
    (hc : c.Type_ ∈ valid_commands) :
    cbStatus (coms_callback s c) = s.status := by
  obtain ⟨ty, body⟩ := c
  simp only [valid_commands, List.mem_cons, List.not_mem_nil, or_false] at hc
  rcases hc with h | h | h | h
  · have h' : ty = "takeoff" := h
    subst h'
    exact runManeuver_status s _ (takeoff_status s)
  · have h' : ty = "land" := h
    subst h'
    exact runManeuver_status s _ (land_status s)
  · have h' : ty = "go_to" := h
    subst h'
    rcases hLat : body.lookup "Lat" with _ | la
    · simp [coms_callback, valid_commands, dictGet, hLat, cbStatus]
    rcases hLon : body.lookup "Lon" with _ | lo
    · simp [coms_callback, valid_commands, dictGet, hLat, hLon, cbStatus]
    rcases hAlt : body.lookup "Alt" with _ | al
    · simp [coms_callback, valid_commands, dictGet, hLat, hLon, hAlt, cbStatus]
    · have hred : coms_callback s { Type_ := "go_to", Body := body } =
          runManeuver s (go_to s { lat := la, lon := lo, alt := al }) := by
        simp [coms_callback, valid_commands, dictGet, hLat, hLon, hAlt]
      rw [hred]
      exact runManeuver_status s _
        (go_to_status s { lat := la, lon := lo, alt := al })
  · have h' : ty = "set_altitude" := h
    subst h'
    rcases hAlt : body.lookup "Alt" with _ | al
    · simp [coms_callback, valid_commands, dictGet, hAlt, cbStatus]
    · have hred : coms_callback s { Type_ := "set_altitude", Body := body } =
          runManeuver s (set_altitude s al) := by
        simp [coms_callback, valid_commands, dictGet, hAlt]
      rw [hred]
      exact runManeuver_status s _ (set_altitude_status s al)

theorem dispatch_preserves_status_witness :
    cbStatus (coms_callback exState { Type_ := "land", Body := [] }) = exState.status :=
  dispatch_preserves_status exState { Type_ := "land", Body := [] } (by decide)

/-- A concrete state whose status is not "ready" (vehicle already running). -/
def notReadyState : VTOLState := { exState with status := "running" }

/-- Concrete evaluation of the takeoff maneuver from `notReadyState`: it runs
to completion (rational arithmetic evaluated by norm_num since `Rat.mul` does
not reduce definitionally). -/
theorem takeoff_notReady_eval :
    takeoff notReadyState = some
      ([Event.pollArmable false, Event.pollArmable false, Event.pollArmable true,
        Event.setMode "GUIDED", Event.setArmed,
        Event.pollArmed false, Event.pollArmed true,
        Event.simpleTakeoff 10,
        Event.pollAlt 1, Event.pollAlt 5, Event.pollAlt (96 / 10)],
       ({ notReadyState with mode := "GUIDED",
                             armableReadings := [],
                             armedReadings := [],
                             altReadings := [] } : VTOLState)) := by
  norm_num [takeoff, pollUntil, notReadyState, exState, exConfigs]

/-- C7 counterexample: the dispatcher has no status check — with status
"running" (not "ready") a takeoff command is still dispatched and the takeoff
maneuver runs to completion (the arm command appears in the trace). -/
theorem takeoff_dispatched_when_not_ready :
    notReadyState.status ≠ "ready" ∧
    ∃ tr s', coms_callback notReadyState { Type_ := "takeoff", Body := [] } =
        CbResult.done tr s' ∧ Event.setArmed ∈ tr := by
  refine ⟨by decide,
    ⟨[Event.pollArmable false, Event.pollArmable false, Event.pollArmable true,
      Event.setMode "GUIDED", Event.setArmed,
      Event.pollArmed false, Event.pollArmed true,
      Event.simpleTakeoff 10,
      Event.pollAlt 1, Event.pollAlt 5, Event.pollAlt (96 / 10)],
     ({ notReadyState with mode := "GUIDED",
                           armableReadings := [],
                           armedReadings := [],
                           altReadings := [] } : VTOLState),
     ?_, by decide⟩⟩
  have hred : coms_callback notReadyState { Type_ := "takeoff", Body := [] } =
      runManeuver notReadyState (takeoff notReadyState) := rfl
  rw [hred, takeoff_notReady_eval]
  rfl

/-- C7 amended: `coms_callback` consults only the command's `Type`, never the
vehicle status — a takeoff command is dispatched to the takeoff maneuver from
any status whatsoever. -/
theorem dispatch_takeoff_unconditional (s : VTOLState) (c : Command)
    (h : c.Type_ = "takeoff") :
    coms_callback s c = runManeuver s (takeoff s) := by
  obtain ⟨ty, body⟩ := c
  have h' : ty = "takeoff" := h
  subst h'
  rfl

theorem dispatch_takeoff_unconditional_witness :
    coms_callback notReadyState { Type_ := "takeoff", Body := [] } =
      runManeuver notReadyState (takeoff notReadyState) :=
  dispatch_takeoff_unconditional notReadyState { Type_ := "takeoff", Body := [] } rfl

/-- C1: a takeoff that completes performed its gating steps strictly in
order: polls of armable (all false but the final one), then the GUIDED mode
change and the arm command, then polls of armed (all false but the final
one), then the climb command to the configured target altitude, then
altitude polls all below 95 percent of the target except the final one — so
the maneuver completes only after the three waits are satisfied, in that
order. -/
theorem takeoff_gating_in_order (s : VTOLState) (h : (takeoff s).isSome) :
    ∃ tr s' a1 a2 a3 x3,
      takeoff s = some (tr, s') ∧
      tr = (a1 ++ [true]).map Event.pollArmable
            ++ [Event.setMode "GUIDED", Event.setArmed]
            ++ (a2 ++ [true]).map Event.pollArmed
            ++ [Event.simpleTakeoff s.configs.altitude]
            ++ (a3 ++ [x3]).map Event.pollAlt ∧
      (∀ b ∈ a1, b = false) ∧
      (∀ b ∈ a2, b = false) ∧
      (∀ a ∈ a3, a < s.configs.altitude * (95 / 100)) ∧
      s.configs.altitude * (95 / 100) ≤ x3 := by
  rw [Option.isSome_iff_exists] at h
  obtain ⟨⟨tr, s'⟩, h⟩ := h
  have h0 := h
  rw [takeoff] at h
  rcases h1 : pollUntil (fun b => b) s.armableReadings with _ | ⟨c1, r1⟩ <;>
    rw [h1] at h
  · exact absurd h (by simp)
  rcases h2 : pollUntil (fun b => b) s.armedReadings with _ | ⟨c2, r2⟩ <;>
    rw [h2] at h
  · exact absurd h (by simp)
  rcases h3 : pollUntil
      (fun a => ! decide (a < s.configs.altitude * (95 / 100)))
      s.altReadings with _ | ⟨c3, r3⟩ <;> rw [h3] at h
  · exact absurd h (by simp)
  simp only [Option.some.injEq, Prod.mk.injEq] at h
  obtain ⟨htr, hst⟩ := h
  obtain ⟨p1, x1, hc1, hpre1, hx1, hxs1⟩ := pollUntil_eq_some _ _ _ _ h1
  obtain ⟨p2, x2, hc2, hpre2, hx2, hxs2⟩ := pollUntil_eq_some _ _ _ _ h2
  obtain ⟨p3, x3, hc3, hpre3, hx3, hxs3⟩ := pollUntil_eq_some _ _ _ _ h3
  have hx1' : x1 = true := hx1
  have hx2' : x2 = true := hx2
  refine ⟨tr, s', p1, p2, p3, x3, h0, ?_, ?_, ?_, ?_, ?_⟩
  · rw [← htr, hc1, hc2, hc3, hx1', hx2']
  · intro b hb
    exact hpre1 b hb
  · intro b hb
    exact hpre2 b hb
  · intro a ha
    have := hpre3 a ha
    simpa using this
  · simpa using hx3

theorem takeoff_gating_in_order_witness :
    ∃ tr s' a1 a2 a3 x3,
      takeoff exState = some (tr, s') ∧
      tr = (a1 ++ [true]).map Event.pollArmable
            ++ [Event.setMode "GUIDED", Event.setArmed]
            ++ (a2 ++ [true]).map Event.pollArmed
            ++ [Event.simpleTakeoff exState.configs.altitude]
            ++ (a3 ++ [x3]).map Event.pollAlt ∧
      (∀ b ∈ a1, b = false) ∧
      (∀ b ∈ a2, b = false) ∧
      (∀ a ∈ a3, a < exState.configs.altitude * (95 / 100)) ∧
      exState.configs.altitude * (95 / 100) ≤ x3 :=
  takeoff_gating_in_order exState
    (by norm_num [takeoff, pollUntil, exState, exConfigs])

/-- No distance poll counts as a navigation request. -/
theorem countP_nav_pollDist (l : List ℚ) :
    List.countP isNavRequest (l.map Event.pollDist) = 0 := by
  induction l with
  | nil => rfl
  | cons x xs ih => simp [List.countP_cons, isNavRequest, ih]

/-- C2: a `go_to` that completes issued exactly one navigation request — the
`simple_goto` of the given point at the configured air speed, at the head of
the trace — and its polling loop consumed exactly the distance readings up to
and including the first one within the waypoint tolerance: every earlier
reading exceeds the tolerance and the final one does not. -/
theorem go_to_single_request_until_tolerance (s : VTOLState)
    (pt : LocationGlobalRelative) (h : (go_to s pt).isSome) :
    ∃ tr s' pre d rest,
      go_to s pt = some (tr, s') ∧
      tr = Event.simpleGoto pt s.configs.air_speed
            :: (pre ++ [d]).map Event.pollDist ∧
      List.countP isNavRequest tr = 1 ∧
      s.distReadings = (pre ++ [d]) ++ rest ∧
      (∀ x ∈ pre, s.configs.waypoint_tolerance < x) ∧
      d ≤ s.configs.waypoint_tolerance := by
  rw [Option.isSome_iff_exists] at h
  obtain ⟨⟨tr, s'⟩, h⟩ := h
  have h0 := h
  rw [go_to] at h
  rcases h1 : pollUntil (fun d => ! decide (s.configs.waypoint_tolerance < d))
      s.distReadings with _ | ⟨c, r⟩ <;> rw [h1] at h
  · exact absurd h (by simp)
  simp only [Option.some.injEq, Prod.mk.injEq] at h
  obtain ⟨htr, hst⟩ := h
  obtain ⟨pre, d, hc, hpre, hd, hxs⟩ := pollUntil_eq_some _ _ _ _ h1
  refine ⟨tr, s', pre, d, r, h0, ?_, ?_, ?_, ?_, ?_⟩
  · rw [← htr, hc]
  · rw [← htr]
    simp [List.countP_cons, isNavRequest, countP_nav_pollDist]
  · rw [hxs, hc]
  · intro x hx
    have := hpre x hx
    simpa using this
  · simpa using hd

theorem go_to_single_request_until_tolerance_witness :
    ∃ tr s' pre d rest,
      go_to exState { lat := 7, lon := 8, alt := 9 } = some (tr, s') ∧
      tr = Event.simpleGoto { lat := 7, lon := 8, alt := 9 }
             exState.configs.air_speed
            :: (pre ++ [d]).map Event.pollDist ∧
      List.countP isNavRequest tr = 1 ∧
      exState.distReadings = (pre ++ [d]) ++ rest ∧
      (∀ x ∈ pre, exState.configs.waypoint_tolerance < x) ∧
      d ≤ exState.configs.waypoint_tolerance :=
  go_to_single_request_until_tolerance exState
    { lat := 7, lon := 8, alt := 9 } (by decide)

/-- A concrete state already at ground level: the very first altitude poll
reads 0. -/
def groundState : VTOLState := { exState with altReadings := [0] }

/-- C3: a `land` that completes first switched the autopilot to landing mode
(head of the trace), its altitude polls stop exactly at the first reading
that is at most 0 (every earlier reading is positive), and the trace ends
with the unconditional 5 second settle sleep — whatever the starting
altitude, including one already at ground level. -/
theorem land_mode_poll_settle (s : VTOLState) (h : (land s).isSome) :
    ∃ tr s' pre a rest,
      land s = some (tr, s') ∧
      tr = Event.setMode s.land_mode
            :: ((pre ++ [a]).map Event.pollAlt ++ [Event.sleep 5]) ∧
      s.altReadings = (pre ++ [a]) ++ rest ∧
      (∀ x ∈ pre, 0 < x) ∧
      a ≤ 0 := by
  rw [Option.isSome_iff_exists] at h
  obtain ⟨⟨tr, s'⟩, h⟩ := h
  have h0 := h
  rw [land] at h
  rcases h1 : pollUntil (fun a => ! decide ((0 : ℚ) < a)) s.altReadings
      with _ | ⟨c, r⟩ <;> rw [h1] at h
  · exact absurd h (by simp)
  simp only [Option.some.injEq, Prod.mk.injEq] at h
  obtain ⟨htr, hst⟩ := h
  obtain ⟨pre, a, hc, hpre, ha, hxs⟩ := pollUntil_eq_some _ _ _ _ h1
  refine ⟨tr, s', pre, a, r, h0, ?_, ?_, ?_, ?_⟩
  · rw [← htr, hc]
  · rw [hxs, hc]
  · intro x hx
    have := hpre x hx
    simpa using this
  · simpa using ha

theorem land_mode_poll_settle_witness :
    ∃ tr s' pre a rest,
      land groundState = some (tr, s') ∧
      tr = Event.setMode groundState.land_mode
            :: ((pre ++ [a]).map Event.pollAlt ++ [Event.sleep 5]) ∧
      groundState.altReadings = (pre ++ [a]) ++ rest ∧
      (∀ x ∈ pre, 0 < x) ∧
      a ≤ 0 :=
  land_mode_poll_settle groundState (by decide)

/-- C9: every update message stamped by the telemetry loop carries
`round(localElapsed - con_timestamp) + gcs_timestamp` as its elapsed time,
with the same pair of link-establishment timestamps (`ComsLink` is a single
fixed value across all cycles — no resynchronization). -/
theorem update_time_formula (coms : ComsLink) (cfg : Configs)
    (cycles : List CycleInput) (i : ℕ) (cyc : CycleInput)
    (h : cycles.get? i = some cyc) :
    ∃ m, (update_thread coms cfg cycles).get? i = some m ∧
      m.time = round (cyc.clock - coms.con_timestamp) + coms.gcs_timestamp := by
  induction cycles generalizing i with
  | nil => simp at h
  | cons x xs ih =>
    cases i with
    | zero =>
      have hx : x = cyc := by
        simp only [List.get?] at h
        injection h
      subst hx
      exact ⟨mk_update_message coms cfg x, rfl, rfl⟩
    | succ n =>
      simp only [List.get?] at h
      obtain ⟨m, hm, ht⟩ := ih n h
      exact ⟨m, hm, ht⟩

/-- A concrete link: local origin 1, peer origin 5. -/
def exComs : ComsLink := { con_timestamp := 1, gcs_timestamp := 5 }

/-- A concrete telemetry cycle sampled at local clock 7/2. -/
def exCycle : CycleInput :=
  { clock := 7 / 2, lat := 0, lon := 0, batteryLevel := some 50, msgId := 3,
    status := "ready" }

theorem update_time_formula_witness :
    ∃ m, (update_thread exComs exConfigs [exCycle]).get? 0 = some m ∧
      m.time = round (exCycle.clock - exComs.con_timestamp) + exComs.gcs_timestamp :=
  update_time_formula exComs exConfigs [exCycle] 0 exCycle rfl

end VTOL
